import Mathlib

/-!
Verification of `src/wayland-backend-sys/src/client/log_shim.c`.

The file embeds the single C function `wl_log_trampoline_to_rust_client`,
which renders a printf-style format string and its variadic arguments into a
256-byte stack buffer with `vsnprintf` and forwards the resulting
null-terminated string to the external sink `wl_log_rust_logger_client`;
when `vsnprintf` reports a non-positive result the unformatted format string
is forwarded instead.

The variadic argument list is embedded as a list of type-erased argument
values, and printf-style substitution is modelled (for literal text, `%d`,
`%s` and `%%`) by `render`, following the C standard semantics that the
`vsnprintf` call in the source relies on.  The trampoline is embedded as a
function returning the sequence of sink invocations it performs, each
invocation recorded as the C string value the sink receives.
-/

namespace LogShim

/-- A C string value: the sequence of characters strictly before the
terminating NUL byte. -/
abbrev CStr := List Char

/-- The NUL byte that terminates C strings. -/
def NUL : Char := Char.ofNat 0

/-- One type-erased variadic argument, as consumed by the printf-style
conversions `%d` (int) and `%s` (string) supported by the formatting model. -/
inductive PArg where
  | int (n : Int)
  | str (s : CStr)
deriving DecidableEq

/-- Decimal rendering of a C int, as the `%d` conversion of printf prints
it. -/
def intToChars (n : Int) : CStr := (toString n).data

/-- Full printf-style substitution of a format string against its variadic
arguments, per the C standard semantics that the `vsnprintf` call in
`log_shim.c` relies on: literal characters are copied, `%d` consumes an int
argument, `%s` consumes a string argument, `%%` emits a percent sign.  A
malformed or unsupported conversion, or a conversion whose matching argument
is missing or of the wrong kind, is a formatting error (`none`).  The result
is the full, untruncated substituted text. -/
def render : CStr → List PArg → Option CStr
  | [], _ => some []
  | c :: rest, args =>
    if c = '%' then
      match rest, args with
      | 'd' :: rest2, PArg.int n :: args2 =>
          (render rest2 args2).map (fun t => intToChars n ++ t)
      | 's' :: rest2, PArg.str s :: args2 =>
          (render rest2 args2).map (fun t => s ++ t)
      | '%' :: rest2, _ =>
          (render rest2 args).map (fun t => '%' :: t)
      | _, _ => none
    else
      (render rest args).map (fun t => c :: t)

/-- Model of the C call `vsnprintf(buffer, n, fmt, list)` as made in
`log_shim.c`, returning the pair of the C string left in `buffer` and the
return value.  On success the buffer holds the substituted text truncated to
at most `n - 1` characters and the return value is the length of the full,
untruncated text (so truncation still yields a positive return for nonempty
output); on a formatting error the return value is negative. -/
def vsnprintf (n : Nat) (fmt : CStr) (args : List PArg) : CStr × Int :=
  match render fmt args with
  | some s => (s.take (n - 1), (s.length : Int))
  | none => ([], -1)

/-- The bytes the `vsnprintf` call writes into the `n`-byte buffer: on
success, the truncated substituted text followed by the terminating NUL
byte; on a formatting error, nothing meaningful is written. -/
def vsnprintfBytesWritten (n : Nat) (fmt : CStr) (args : List PArg) : List Char :=
  match render fmt args with
  | some s => s.take (n - 1) ++ [NUL]
  | none => []

/-- The external sink `wl_log_rust_logger_client`: an invocation is modelled
as the singleton list holding the message value the sink receives. -/
def wl_log_rust_logger_client (msg : CStr) : List CStr := [msg]

/-- Embedding of `wl_log_trampoline_to_rust_client` from `log_shim.c`:
render `fmt` against `list` into a 256-byte buffer via `vsnprintf`; if the
return value `ret` satisfies `ret <= 0`, forward the unformatted `fmt` to
the sink in a best-effort attempt, otherwise forward the buffer.  The result
is the sequence of sink invocations the call performs. -/
def wl_log_trampoline_to_rust_client (fmt : CStr) (list : List PArg) : List CStr :=
  let buffer := (vsnprintf 256 fmt list).1
  let ret := (vsnprintf 256 fmt list).2
  if ret ≤ 0 then
    wl_log_rust_logger_client fmt
  else
    wl_log_rust_logger_client buffer

/-- A sequence of trampoline invocations: the concatenation of the sink
messages each call delivers, in call order. -/
def runCalls (calls : List (CStr × List PArg)) : List CStr :=
  calls.flatMap (fun c => wl_log_trampoline_to_rust_client c.1 c.2)

/-- When substitution fails, `vsnprintf` returns `-1 ≤ 0` and the trampoline
forwards the unformatted format string. -/
theorem trampoline_of_render_none (fmt : CStr) (args : List PArg)
    (h : render fmt args = none) :
    wl_log_trampoline_to_rust_client fmt args = [fmt] := by
  simp [wl_log_trampoline_to_rust_client, vsnprintf, h, wl_log_rust_logger_client]

/-- When substitution succeeds with result `s`, the trampoline forwards the
format string if `s` is empty (return value `0 ≤ 0`) and the truncated
buffer otherwise. -/
theorem trampoline_of_render_some (fmt : CStr) (args : List PArg) (s : CStr)
    (h : render fmt args = some s) :
    wl_log_trampoline_to_rust_client fmt args =
      if s.length = 0 then [fmt] else [s.take 255] := by
  simp only [wl_log_trampoline_to_rust_client, vsnprintf, h,
    wl_log_rust_logger_client]
  by_cases hs : s.length = 0
  · rw [if_pos (by omega : (s.length : Int) ≤ 0), if_pos hs]
  · rw [if_neg (by omega : ¬ (s.length : Int) ≤ 0), if_neg hs]

/-- A format string containing no percent sign has no conversion specifiers
and is substituted to itself, whatever the argument list. -/
theorem render_no_percent (fmt : CStr) (args : List PArg) (h : '%' ∉ fmt) :
    render fmt args = some fmt := by
  induction fmt with
  | nil => rfl
  | cons c rest ih =>
    have hc : ¬ c = '%' := fun hceq => h (hceq ▸ List.mem_cons_self c rest)
    have hrest : '%' ∉ rest := fun hm => h (List.mem_cons_of_mem c hm)
    rw [render.eq_def]
    simp only [if_neg hc, ih hrest]
    rfl

/-- C1 (counterexample): the claim fails when the fully substituted result is
the empty string.  With format `"%s"` and an empty-string argument the
substituted result is `""`, of length `0 ≤ 255`, yet the sink does not
receive that substituted result: `vsnprintf` returns `0`, so the fallback
forwards the format string `"%s"` instead. -/
theorem empty_substituted_result_not_delivered :
    render ['%', 's'] [PArg.str []] = some [] ∧
    ([] : CStr).length ≤ 255 ∧
    wl_log_trampoline_to_rust_client ['%', 's'] [PArg.str []] ≠ [([] : CStr)] := by
  decide

/-- C1 (amended): for every format string and argument list whose fully
substituted result is nonempty and has length at most 255 characters, the
trampoline delivers to the sink exactly that substituted result. -/
theorem sink_receives_short_substituted_result (fmt : CStr) (args : List PArg)
    (s : CStr) (h : render fmt args = some s) (h1 : 1 ≤ s.length)
    (h2 : s.length ≤ 255) :
    wl_log_trampoline_to_rust_client fmt args = [s] := by
  rw [trampoline_of_render_some fmt args s h, if_neg (by omega),
    List.take_of_length_le h2]

/-- C1 witness: format `"value=%d"` with argument `42` delivers exactly
`"value=42"` to the sink. -/
theorem sink_receives_short_substituted_result_witness :
    wl_log_trampoline_to_rust_client "value=%d".data [PArg.int 42] =
      ["value=42".data] :=
  sink_receives_short_substituted_result "value=%d".data [PArg.int 42]
    "value=42".data (by decide) (by decide) (by decide)

/-- C2: the trampoline takes the fallback exactly when the formatter's return
value is non-positive: in that case the sink receives the original,
unsubstituted format string, and otherwise it receives the rendered
buffer. -/
theorem fallback_iff_nonpositive_return (fmt : CStr) (args : List PArg) :
    ((vsnprintf 256 fmt args).2 ≤ 0 →
      wl_log_trampoline_to_rust_client fmt args = [fmt]) ∧
    (0 < (vsnprintf 256 fmt args).2 →
      wl_log_trampoline_to_rust_client fmt args =
        [(vsnprintf 256 fmt args).1]) := by
  constructor
  · intro h
    simp only [wl_log_trampoline_to_rust_client, wl_log_rust_logger_client,
      if_pos h]
  · intro h
    simp only [wl_log_trampoline_to_rust_client, wl_log_rust_logger_client,
      if_neg (not_le.mpr h)]

/-- C2 witness: the lone malformed format `"%"` makes the formatter fail with
a negative return, and the sink receives `"%"` itself. -/
theorem fallback_iff_nonpositive_return_witness :
    wl_log_trampoline_to_rust_client ['%'] [] = [['%']] :=
  (fallback_iff_nonpositive_return ['%'] []).1 (by decide)

/-- C3: when the fully substituted result exceeds 255 characters, the sink
receives the prefix of exactly 255 characters, the bytes written into the
buffer are that prefix followed by the NUL terminator, and the return value
stays positive, so the fallback path is not taken. -/
theorem long_result_truncated_to_255 (fmt : CStr) (args : List PArg) (s : CStr)
    (h : render fmt args = some s) (h2 : 255 < s.length) :
    wl_log_trampoline_to_rust_client fmt args = [s.take 255] ∧
    (s.take 255).length = 255 ∧
    s.take 255 ++ s.drop 255 = s ∧
    vsnprintfBytesWritten 256 fmt args = s.take 255 ++ [NUL] ∧
    0 < (vsnprintf 256 fmt args).2 := by
  refine ⟨?_, ?_, List.take_append_drop 255 s, ?_, ?_⟩
  · rw [trampoline_of_render_some fmt args s h, if_neg (by omega)]
  · rw [List.length_take]
    omega
  · simp [vsnprintfBytesWritten, h]
  · simp only [vsnprintf, h]
    omega

set_option maxRecDepth 4096 in
/-- C3 witness: format `"%s"` with a 300-character argument delivers the
255-character prefix to the sink. -/
theorem long_result_truncated_to_255_witness :
    wl_log_trampoline_to_rust_client ['%', 's']
        [PArg.str (List.replicate 300 'a')] =
      [(List.replicate 300 'a').take 255] :=
  (long_result_truncated_to_255 ['%', 's'] [PArg.str (List.replicate 300 'a')]
    (List.replicate 300 'a') (by decide) (by decide)).1

/-- C4: the trampoline never signals an error outward: every invocation
reduces to exactly one ordinary sink invocation carrying some string, for
every format string and argument list. -/
theorem trampoline_never_fails_outward (fmt : CStr) (args : List PArg) :
    ∃ msg : CStr, wl_log_trampoline_to_rust_client fmt args =
      wl_log_rust_logger_client msg := by
  by_cases h : (vsnprintf 256 fmt args).2 ≤ 0
  · exact ⟨fmt, by simp only [wl_log_trampoline_to_rust_client, if_pos h]⟩
  · exact ⟨(vsnprintf 256 fmt args).1,
      by simp only [wl_log_trampoline_to_rust_client, if_neg h]⟩

set_option maxRecDepth 4096 in
/-- C5 (counterexample): the claim fails for specifier-free format strings
longer than 255 characters.  A format of 256 letters `a` contains no
conversion specifier, yet the sink receives its 255-character truncation,
not the format verbatim. -/
theorem overlong_literal_format_not_verbatim :
    ('%' ∉ List.replicate 256 'a') ∧
    wl_log_trampoline_to_rust_client (List.replicate 256 'a') [] ≠
      [List.replicate 256 'a'] := by
  decide

/-- C5 (amended): every format string with no conversion specifiers (no
percent sign), called with no variadic arguments, whose length is at most
255 characters, is delivered to the sink verbatim. -/
theorem literal_format_forwarded_verbatim (fmt : CStr)
    (hp : '%' ∉ fmt) (hlen : fmt.length ≤ 255) :
    wl_log_trampoline_to_rust_client fmt [] = [fmt] := by
  rw [trampoline_of_render_some fmt [] fmt (render_no_percent fmt [] hp)]
  by_cases h0 : fmt.length = 0
  · rw [if_pos h0]
  · rw [if_neg h0, List.take_of_length_le hlen]

/-- C5 witness: format `"no args here"` with no arguments is delivered
verbatim to the sink. -/
theorem literal_format_forwarded_verbatim_witness :
    wl_log_trampoline_to_rust_client "no args here".data [] =
      ["no args here".data] :=
  literal_format_forwarded_verbatim "no args here".data (by decide) (by decide)

/-- C6: when the fully substituted result is empty, the formatter returns
`0`, the trampoline takes the failure branch, and the sink receives the
original format string rather than the empty substituted result. -/
theorem empty_result_takes_fallback (fmt : CStr) (args : List PArg)
    (h : render fmt args = some []) :
    (vsnprintf 256 fmt args).2 = 0 ∧
    wl_log_trampoline_to_rust_client fmt args = [fmt] := by
  refine ⟨by simp [vsnprintf, h], ?_⟩
  rw [trampoline_of_render_some fmt args [] h,
    if_pos (show ([] : CStr).length = 0 from rfl)]

/-- C6 witness: format `"%s"` with an empty-string argument makes the
formatter return `0` and the sink receives `"%s"`. -/
theorem empty_result_takes_fallback_witness :
    (vsnprintf 256 ['%', 's'] [PArg.str []]).2 = 0 ∧
    wl_log_trampoline_to_rust_client ['%', 's'] [PArg.str []] = [['%', 's']] :=
  empty_result_takes_fallback ['%', 's'] [PArg.str []] (by decide)

/-- C7: the rendering step writes at most 256 bytes into the 256-byte
buffer, and on the success path the bytes written are the forwarded string
followed by the NUL terminator, with the string itself at most 255
characters, so the buffer is never overrun and the sink string is
null-terminated within the buffer. -/
theorem vsnprintf_write_within_bounds (fmt : CStr) (args : List PArg) :
    (vsnprintfBytesWritten 256 fmt args).length ≤ 256 ∧
    (∀ s : CStr, render fmt args = some s →
      vsnprintfBytesWritten 256 fmt args = (vsnprintf 256 fmt args).1 ++ [NUL] ∧
      (vsnprintf 256 fmt args).1.length ≤ 255) := by
  constructor
  · cases hr : render fmt args with
    | none => simp [vsnprintfBytesWritten, hr]
    | some s =>
      simp only [vsnprintfBytesWritten, hr, List.length_append,
        List.length_take, List.length_singleton]
      omega
  · intro s hs
    constructor
    · simp [vsnprintfBytesWritten, vsnprintf, hs]
    · simp only [vsnprintf, hs, List.length_take]
      omega

/-- C7 witness: for format `"value=%d"` with argument `42` the bytes written
are the sink string followed by the NUL terminator. -/
theorem vsnprintf_write_within_bounds_witness :
    vsnprintfBytesWritten 256 "value=%d".data [PArg.int 42] =
      (vsnprintf 256 "value=%d".data [PArg.int 42]).1 ++ [NUL] :=
  ((vsnprintf_write_within_bounds "value=%d".data [PArg.int 42]).2
    "value=42".data (by decide)).1

/-- C8: every invocation of the trampoline invokes the sink exactly once,
whether formatting succeeds or fails. -/
theorem sink_invoked_exactly_once (fmt : CStr) (args : List PArg) :
    (wl_log_trampoline_to_rust_client fmt args).length = 1 := by
  by_cases h : (vsnprintf 256 fmt args).2 ≤ 0
  · simp only [wl_log_trampoline_to_rust_client, wl_log_rust_logger_client,
      if_pos h, List.length_singleton]
  · simp only [wl_log_trampoline_to_rust_client, wl_log_rust_logger_client,
      if_neg h, List.length_singleton]

/-- C9: the trampoline is deterministic and reads or writes no persistent
state: in every invocation history, the strings a call delivers to the sink
are exactly `wl_log_trampoline_to_rust_client fmt args`, a function of that
call's inputs alone, independent of all preceding calls. -/
theorem trampoline_deterministic_history_independent
    (pre : List (CStr × List PArg)) (fmt : CStr) (args : List PArg) :
    runCalls (pre ++ [(fmt, args)]) =
      runCalls pre ++ wl_log_trampoline_to_rust_client fmt args := by
  simp [runCalls]

end LogShim
